import Mathlib

/-!
Shallow embedding of the multi-tenant GPU task scheduler
(`src/app/main_gpus.py`, `src/utils/gpu_select.py`,
`src/app/utils/gpus_command_file.py`, `src/app/utils/retry.py`).

External effects (the `nvidia-smi` probe, the process table, the wall
clock, child-process execution) are passed in as oracle functions, so
every definition below is a pure, executable function of the code's
inputs plus those oracles.  Python floats are modelled as `ℚ`, Python
ints as `ℤ`/`ℕ` (quantities that the code can only ever produce as
non-negative, such as parsed counts, are `ℕ`), Python strings as `String`
or `List Char`.
-/

/- ===================== GPU selector: src/utils/gpu_select.py ===================== -/

/-- Models the dataclass `GPUStats` (gpu_select.py lines 22-36):
per-device snapshot of free/used/total memory (GB) and compute
utilization. -/
structure GPUStats where
  gpu_id : ℕ
  memory_free : ℚ
  memory_used : ℚ
  memory_total : ℚ
  utilization : ℚ
deriving Repr, DecidableEq

/-- Models the property `GPUStats.memory_utilization` (gpu_select.py
lines 31-36): `used / total` when `total > 0`, else `0.0`. -/
def GPUStats.memory_utilization (s : GPUStats) : ℚ :=
  if 0 < s.memory_total then s.memory_used / s.memory_total else 0

/-- Models `GPUSelector.calculate_priority` (gpu_select.py lines 155-179).
Returns the `(primary, secondary)` score pair; smaller sorts first. -/
def calculate_priority (memory_save_mode : Bool) (stats : GPUStats) : ℚ × ℚ :=
  if memory_save_mode then
    (stats.memory_utilization * stats.memory_free, stats.memory_free)
  else
    (stats.memory_utilization * stats.memory_used, stats.memory_used)

/-- Models the averaging step of `GPUSelector.sample_gpu_stats`
(gpu_select.py lines 134-147): field-wise mean of the collected samples,
with `memory_total` taken from the first sample; `none` when no sample
succeeded. -/
def average_stats (gpu_id : ℕ) : List GPUStats → Option GPUStats
  | [] => none
  | s0 :: rest =>
    let l := s0 :: rest
    let n : ℚ := (l.length : ℚ)
    some { gpu_id := gpu_id
           memory_free := (l.map (fun s => s.memory_free)).sum / n
           memory_used := (l.map (fun s => s.memory_used)).sum / n
           memory_total := s0.memory_total
           utilization := (l.map (fun s => s.utilization)).sum / n }

/-- Models the sampling loop of `GPUSelector.sample_gpu_stats`
(gpu_select.py lines 124-132) for one device: `get_stats i g` is the
result of the probe for device `g` in sampling round `i` (`none` models
a failed `nvidia-smi` call, which the code drops). -/
def avg_sampled_stats (get_stats : ℕ → ℕ → Option GPUStats) (sample_count : ℕ)
    (gpu_id : ℕ) : Option GPUStats :=
  average_stats gpu_id ((List.range sample_count).filterMap (fun i => get_stats i gpu_id))

/-- Builds the `{gpu_id: GPUStats}` dict, in candidate order, from a
per-device stats source, skipping devices with no stats.  Python dicts
preserve insertion order, so the dict is modelled as an association list
in `gpu_ids` order. -/
def gpu_stats_dict (source : ℕ → Option GPUStats) (gpu_ids : List ℕ) :
    List (ℕ × GPUStats) :=
  gpu_ids.filterMap (fun gpu_id => (source gpu_id).map (fun s => (gpu_id, s)))

/-- Models `GPUSelector.sample_gpu_stats` (gpu_select.py lines 101-153). -/
def sample_gpu_stats (get_stats : ℕ → ℕ → Option GPUStats) (sample_count : ℕ)
    (gpu_ids : List ℕ) : List (ℕ × GPUStats) :=
  gpu_stats_dict (avg_sampled_stats get_stats sample_count) gpu_ids

/-- Models `GPUSelector.get_all_gpu_stats` (gpu_select.py lines 84-99):
one probe per device, no averaging (`get_stats 0` is that single round). -/
def get_all_gpu_stats (get_stats : ℕ → ℕ → Option GPUStats) (gpu_ids : List ℕ) :
    List (ℕ × GPUStats) :=
  gpu_stats_dict (get_stats 0) gpu_ids

/-- Stats source actually used by the selector: the 30-sample average
when `use_sampling` is set, otherwise a single probe round. -/
def stats_source (get_stats : ℕ → ℕ → Option GPUStats) (use_sampling : Bool)
    (sample_count : ℕ) : ℕ → Option GPUStats :=
  if use_sampling then avg_sampled_stats get_stats sample_count else get_stats 0

/-- Lexicographic order on `(primary, secondary)` score pairs: this is
how Python compares the tuples `(x[2], x[3])` in `scored_gpus.sort`. -/
def pairLe (x y : ℚ × ℚ) : Prop :=
  x.1 < y.1 ∨ (x.1 = y.1 ∧ x.2 ≤ y.2)

instance pairLe.instDecidableRel : DecidableRel pairLe :=
  fun x y => inferInstanceAs (Decidable (x.1 < y.1 ∨ (x.1 = y.1 ∧ x.2 ≤ y.2)))

/-- Comparison used to sort the scored `(gpu_id, (primary, secondary))`
entries. -/
def scoredLe (a b : ℕ × (ℚ × ℚ)) : Prop := pairLe a.2 b.2

instance scoredLe.instDecidableRel : DecidableRel scoredLe :=
  fun a b => inferInstanceAs (Decidable (pairLe a.2 b.2))

instance scoredLe.instIsTotal : IsTotal (ℕ × (ℚ × ℚ)) scoredLe := by
  constructor
  intro a b
  unfold scoredLe pairLe
  rcases lt_trichotomy a.2.1 b.2.1 with h | h | h
  · exact Or.inl (Or.inl h)
  · rcases le_total a.2.2 b.2.2 with h2 | h2
    · exact Or.inl (Or.inr ⟨h, h2⟩)
    · exact Or.inr (Or.inr ⟨h.symm, h2⟩)
  · exact Or.inr (Or.inl h)

instance scoredLe.instIsTrans : IsTrans (ℕ × (ℚ × ℚ)) scoredLe := by
  constructor
  intro a b c hab hbc
  unfold scoredLe pairLe at *
  rcases hab with h1 | ⟨h1, h1'⟩
  · rcases hbc with h2 | ⟨h2, _⟩
    · exact Or.inl (h1.trans h2)
    · exact Or.inl (h2 ▸ h1)
  · rcases hbc with h2 | ⟨h2, h2'⟩
    · exact Or.inl (h1 ▸ h2)
    · exact Or.inr ⟨h1.trans h2, h1'.trans h2'⟩

/-- Memory filter of `select_best_gpus` (gpu_select.py lines 278-284):
keep the devices whose (averaged) free memory is at least
`required_memory`. -/
def valid_gpus (stats_dict : List (ℕ × GPUStats)) (required_memory : ℚ) :
    List (ℕ × GPUStats) :=
  stats_dict.filter (fun p => decide (required_memory ≤ p.2.memory_free))

/-- Models `GPUSelector.select_best_gpus` (gpu_select.py lines 246-305).
Python's `list.sort` is stable, and for a total preorder the stable sort
is a unique function, so it is modelled by `List.insertionSort` (whose
stability is the documented contract in Mathlib). -/
def select_best_gpus (memory_save_mode : Bool) (get_stats : ℕ → ℕ → Option GPUStats)
    (gpu_ids : List ℕ) (count : ℕ) (required_memory : ℚ)
    (use_sampling : Bool) (sample_count : ℕ) : List ℕ :=
  if gpu_ids.isEmpty || count == 0 then []
  else
    let stats_dict := gpu_stats_dict (stats_source get_stats use_sampling sample_count) gpu_ids
    if stats_dict.isEmpty then []
    else
      let valid := valid_gpus stats_dict required_memory
      if valid.isEmpty then []
      else
        let scored := valid.map (fun p => (p.1, calculate_priority memory_save_mode p.2))
        let sorted := scored.insertionSort scoredLe
        (sorted.map Prod.fst).take count

/-- Models the convenience function `select_gpus` (gpu_select.py lines
331-354) as called by the scheduler: sampling enabled, 30 samples. -/
def select_gpus (get_stats : ℕ → ℕ → Option GPUStats) (gpu_ids : List ℕ)
    (count : ℕ) (memory_save_mode : Bool) (required_memory : ℚ) : List ℕ :=
  select_best_gpus memory_save_mode get_stats gpu_ids count required_memory true 30

/-- Priority pair of a device as recorded in a stats dict (used to state
ordering properties of the selector's output). -/
def priority_in_dict (memory_save_mode : Bool) (stats_dict : List (ℕ × GPUStats))
    (gpu_id : ℕ) : ℚ × ℚ :=
  match stats_dict.lookup gpu_id with
  | some s => calculate_priority memory_save_mode s
  | none => (0, 0)

/-- Device ids surviving the memory filter, in dict (= candidate) order. -/
def surviving_ids (stats_dict : List (ℕ × GPUStats)) (required_memory : ℚ) : List ℕ :=
  (valid_gpus stats_dict required_memory).map Prod.fst

/- ============ Admission controller and dispatcher: src/app/main_gpus.py ============ -/

/-- Dynamic-reservation configuration (main_gpus.py lines 96-98 /
151-154): `gpu_left` devices left to others, `min_gpu` quota floor,
`max_gpu` quota ceiling. -/
structure ResCfg where
  gpu_left : ℤ
  min_gpu : ℤ
  max_gpu : ℤ
deriving Repr, DecidableEq

/-- Models `_get_current_user_gpu_count` (main_gpus.py lines 240-252):
candidate devices that are in the scheduler's ownership map
(`occupied`) or have external user processes (`user_procs`, the probe's
pid list). -/
def get_current_user_gpu_count (gpus : List ℕ) (occupied : ℕ → Option ℕ)
    (user_procs : ℕ → List ℕ) : ℕ :=
  gpus.foldl
    (fun acc gpu_id =>
      if (occupied gpu_id).isSome then acc + 1
      else if user_procs gpu_id ≠ [] then acc + 1
      else acc)
    0

/-- Models `_get_max_allowed_gpus` (main_gpus.py lines 254-269):
count devices with at least 1 GB of probed free memory, then
`max(0, min(max_gpu, max(min_gpu, available - gpu_left)))`. -/
def get_max_allowed_gpus (cfg : ResCfg) (gpus : List ℕ) (free_mem : ℕ → ℚ) : ℤ :=
  let available_gpus : ℕ :=
    gpus.foldl (fun acc gpu_id => if (1 : ℚ) ≤ free_mem gpu_id then acc + 1 else acc) 0
  max 0 (min cfg.max_gpu (max cfg.min_gpu ((available_gpus : ℤ) - cfg.gpu_left)))

/-- Models `_can_acquire_more_gpus` (main_gpus.py lines 271-279). -/
def can_acquire_more_gpus (cfg : ResCfg) (gpus : List ℕ) (occupied : ℕ → Option ℕ)
    (user_procs : ℕ → List ℕ) (free_mem : ℕ → ℚ) (count : ℕ) : Bool :=
  decide (((get_current_user_gpu_count gpus occupied user_procs : ℤ) + count)
    ≤ get_max_allowed_gpus cfg gpus free_mem)

/-- Models `find_available_gpus` (main_gpus.py lines 281-358): admission
check, candidate filtering (ownership and foreign processes are checked
only in non-maximize mode), then exact match / smart selection /
fall-back to the first candidates. -/
def find_available_gpus (maximize memory_save_mode : Bool) (cfg : ResCfg)
    (gpus : List ℕ) (occupied : ℕ → Option ℕ) (user_procs : ℕ → List ℕ)
    (free_mem : ℕ → ℚ) (get_stats : ℕ → ℕ → Option GPUStats)
    (gpu_count : ℕ) (required_memory : ℚ) : Option (List ℕ) :=
  if can_acquire_more_gpus cfg gpus occupied user_procs free_mem gpu_count = false then none
  else
    let candidate_gpus := gpus.filter (fun gpu_id =>
      (maximize || !(occupied gpu_id).isSome)
        && decide (required_memory ≤ free_mem gpu_id)
        && (maximize || (user_procs gpu_id).isEmpty))
    if candidate_gpus.length < gpu_count then none
    else if candidate_gpus.length == gpu_count then some candidate_gpus
    else
      let best_gpus := select_gpus get_stats candidate_gpus gpu_count memory_save_mode required_memory
      if gpu_count ≤ best_gpus.length then some (best_gpus.take gpu_count)
      else some (candidate_gpus.take gpu_count)

/- ===================== Ownership map: main_gpus.py lines 360-373 ===================== -/

/-- Models `_acquire_gpus` (main_gpus.py lines 360-365): mark every
device of `gpu_ids` as owned by `queue_id` (the Python dict
`occupied_gpus` is modelled as a function to `Option` queue id). -/
def acquire_gpus (occupied : ℕ → Option ℕ) (gpu_ids : List ℕ) (queue_id : ℕ) :
    ℕ → Option ℕ :=
  gpu_ids.foldl (fun m gpu_id => Function.update m gpu_id (some queue_id)) occupied

/-- Models `_release_gpus` (main_gpus.py lines 367-373): delete exactly
the entries among `gpu_ids` whose recorded owner is `queue_id`. -/
def release_gpus (occupied : ℕ → Option ℕ) (gpu_ids : List ℕ) (queue_id : ℕ) :
    ℕ → Option ℕ :=
  gpu_ids.foldl
    (fun m gpu_id => if m gpu_id = some queue_id then Function.update m gpu_id none else m)
    occupied

/- ============== SchedTask state, retry policy, execution: main_gpus.py ============== -/

/-- Models the dataclass `RetryConfig` (src/app/utils/retry.py lines
13-22). -/
structure RetryConfig where
  max_retry_before_backoff : ℕ
  backoff_duration : ℚ
deriving Repr, DecidableEq

/-- Models the dataclass named Task in the source (main_gpus.py lines 113-124).  The
`status` field keeps the source's string values `"pending"`,
`"running"`, `"completed"`, `"failed"`. -/
structure SchedTask where
  commands : List String
  queue_id : ℕ
  gpu_count : ℕ
  estimated_memory_gb : ℕ
  status : String := "pending"
  assigned_gpus : List ℕ := []
  retry_count : ℕ := 0
  backoff_until : ℚ := 0
  error_type : String := ""
deriving Repr, DecidableEq

/-- Outcome of one `subprocess.run` call (main_gpus.py lines 441-471):
normal completion with an exit code and captured output, the 2-hour
`TimeoutExpired`, or some other raised exception (identified by its
class name). -/
inductive RunResult where
  | completed (returncode : ℤ) (stdout stderr : String)
  | timedOut
  | raised (exc_name : String)
deriving Repr, DecidableEq

/-- Observable events of a task attempt, used to state ordering
properties (status transitions vs. GPU release). -/
inductive Event where
  | statusSet (s : String)
  | ran (full_cmd : String)
  | released (gpu_ids : List ℕ)
deriving Repr, DecidableEq

/-- Error tag a failing `RunResult` is classified with (main_gpus.py
lines 452-471): `exit_code_<n>`, `timeout`, or the exception class
name; `none` when the command succeeded. -/
def error_kind : RunResult → Option String
  | .completed code _ _ => if code ≠ 0 then some ("exit_code_" ++ toString code) else none
  | .timedOut => some "timeout"
  | .raised exc_name => some exc_name

/-- Models `_handle_task_failure` (main_gpus.py lines 477-495):
increment `retry_count`, record the error kind, enter backoff when the
new count is a multiple of `max_retry_before_backoff`, and return the
task to `pending`. -/
def handle_task_failure (rcfg : RetryConfig) (now : ℚ) (task : SchedTask)
    (error_type : String) : SchedTask :=
  let task := { task with retry_count := task.retry_count + 1, error_type := error_type }
  if task.retry_count % rcfg.max_retry_before_backoff = 0 then
    { task with backoff_until := now + rcfg.backoff_duration, status := "pending" }
  else
    { task with status := "pending" }

/-- Models `','.join(map(str, gpu_ids))` (main_gpus.py line 420): the
`CUDA_VISIBLE_DEVICES` value, joined in the order of `gpu_ids`. -/
def cuda_devices_str (gpu_ids : List ℕ) : String :=
  String.intercalate "," (gpu_ids.map toString)

/-- The mask value the spec describes: comma-joined in ascending
device-id order. -/
def ascending_mask (gpu_ids : List ℕ) : String :=
  cuda_devices_str (gpu_ids.insertionSort (fun a b => a ≤ b))

/-- Replaces every occurrence of `target` by `repl`, scanning left to
right (the semantics of Python's `str.replace` for a non-empty
`target`).  The first argument is recursion fuel; one character is
consumed per step, so fuel equal to the scanned list's length is always
enough and the fuel-exhausted branch is unreachable from `py_replace`. -/
def py_replace_aux (target repl : List Char) : ℕ → List Char → List Char
  | _, [] => []
  | 0, s => s
  | fuel + 1, c :: rest =>
    if target ≠ [] ∧ target.isPrefixOf (c :: rest) then
      repl ++ py_replace_aux target repl fuel ((c :: rest).drop target.length)
    else
      c :: py_replace_aux target repl fuel rest

/-- String version of `py_replace_aux`. -/
def py_replace (target repl s : String) : String :=
  String.mk (py_replace_aux target.data repl.data s.data.length s.data)

/-- Models `cmd_template.format(work_dir=work_dir)` (main_gpus.py line
426): substitution of the `\x7bwork_dir\x7d` placeholder. -/
def subst_work_dir (work_dir cmd_template : String) : String :=
  py_replace "\x7bwork_dir\x7d" work_dir cmd_template

/-- Models the command-string construction of `execute_task`
(main_gpus.py lines 429-432): conda init preamble, the
`CUDA_VISIBLE_DEVICES` export, then the command. -/
def build_full_cmd (conda_sh cuda_devices cmd : String) : String :=
  "source " ++ conda_sh ++ " && export CUDA_VISIBLE_DEVICES=" ++ cuda_devices ++ " && " ++ cmd

/-- Models the command loop of `execute_task` (main_gpus.py lines
424-475).  `run_command i` is the outcome of the `i`-th `subprocess.run`
call.  Returns the updated task, the success flag, and the emitted
event trace. -/
def exec_commands (rcfg : RetryConfig) (now : ℚ) (conda_sh work_dir cuda_devices : String)
    (run_command : ℕ → RunResult) (task : SchedTask) : List String → ℕ → SchedTask × Bool × List Event
  | [], _ => ({ task with status := "completed" }, true, [Event.statusSet "completed"])
  | cmd_template :: rest, i =>
    let cmd := subst_work_dir work_dir cmd_template
    let full_cmd := build_full_cmd conda_sh cuda_devices cmd
    match run_command i with
    | .completed code _ _ =>
      if code ≠ 0 then
        (handle_task_failure rcfg now task ("exit_code_" ++ toString code), false,
          [Event.ran full_cmd, Event.statusSet "pending"])
      else
        let r := exec_commands rcfg now conda_sh work_dir cuda_devices run_command task rest (i + 1)
        (r.1, r.2.1, Event.ran full_cmd :: r.2.2)
    | .timedOut =>
      (handle_task_failure rcfg now task "timeout", false,
        [Event.ran full_cmd, Event.statusSet "pending"])
    | .raised exc_name =>
      (handle_task_failure rcfg now task exc_name, false,
        [Event.ran full_cmd, Event.statusSet "pending"])

/-- Models `execute_task` (main_gpus.py lines 405-475): record the
assigned devices, mark the task running, build the device mask, then
run the commands in order. -/
def execute_task (rcfg : RetryConfig) (now : ℚ) (conda_sh work_dir : String)
    (run_command : ℕ → RunResult) (task : SchedTask) (gpu_ids : List ℕ) : SchedTask × Bool × List Event :=
  let task := { task with assigned_gpus := gpu_ids, status := "running" }
  let cuda_devices := cuda_devices_str gpu_ids
  let r := exec_commands rcfg now conda_sh work_dir cuda_devices run_command task task.commands 0
  (r.1, r.2.1, Event.statusSet "running" :: r.2.2)

/-- Models one attempt of `_execute_task_with_retry` (main_gpus.py
lines 597-601): `execute_task` inside `try`, with `_release_gpus` in
the `finally` block, so the release event is appended after everything
`execute_task` did. -/
def attempt_task (rcfg : RetryConfig) (now : ℚ) (conda_sh work_dir : String)
    (run_command : ℕ → RunResult) (task : SchedTask) (gpu_ids : List ℕ) : SchedTask × Bool × List Event :=
  let r := execute_task rcfg now conda_sh work_dir run_command task gpu_ids
  (r.1, r.2.1, r.2.2 ++ [Event.released gpu_ids])

/-- Environment of one iteration of the retry loop: the wall clock, the
result of `_wait_for_gpus` (`none` models both wait timeout and
shutdown), and the command outcomes of the attempt started in this
iteration. -/
structure StepEnv where
  now : ℚ
  wait_result : Option (List ℕ)
  run_command : ℕ → RunResult

/-- Models the loop of `_execute_task_with_retry` (main_gpus.py lines
553-652).  One `StepEnv` is consumed per loop iteration; an exhausted
environment list models `self.running` becoming false (shutdown), on
which the code also returns `False`.  The loop runs only while
`task.retry_count < 100` (`max_total_retries`). -/
def execute_task_with_retry (rcfg : RetryConfig) (conda_sh work_dir : String) :
    SchedTask → List StepEnv → SchedTask × Bool
  | task, [] => (task, false)
  | task, env :: rest =>
    if 100 ≤ task.retry_count then (task, false)
    else if 0 < task.backoff_until ∧ env.now < task.backoff_until then
      execute_task_with_retry rcfg conda_sh work_dir task rest
    else
      match env.wait_result with
      | none => (task, false)
      | some gpu_ids =>
        let r := attempt_task rcfg env.now conda_sh work_dir env.run_command task gpu_ids
        if r.2.1 then (r.1, true)
        else if r.1.status = "pending" then
          execute_task_with_retry rcfg conda_sh work_dir r.1 rest
        else (r.1, false)

/-- Models `_run_queue` (main_gpus.py lines 516-551): walk the queue's
tasks in order, skip completed ones, and stop at the first task whose
retry loop reports failure — the remaining tasks are returned
untouched (never attempted).  `envs_for i` is the environment stream of
task `i`. -/
def run_queue (rcfg : RetryConfig) (conda_sh work_dir : String)
    (envs_for : ℕ → List StepEnv) : ℕ → List SchedTask → List SchedTask
  | _, [] => []
  | idx, task :: rest =>
    if task.status = "completed" then
      task :: run_queue rcfg conda_sh work_dir envs_for (idx + 1) rest
    else
      let r := execute_task_with_retry rcfg conda_sh work_dir task (envs_for idx)
      if r.2 then r.1 :: run_queue rcfg conda_sh work_dir envs_for (idx + 1) rest
      else r.1 :: rest

/-- Worker fan-out over the queue list starting at queue index `qidx`:
each queue is run by `run_queue` on its own task list and its own
environment stream, independently of the other queues. -/
def run_all_queues_from (rcfg : RetryConfig) (conda_sh work_dir : String)
    (envs_for_queue : ℕ → ℕ → List StepEnv) :
    ℕ → List (List SchedTask) → List (List SchedTask)
  | _, [] => []
  | qidx, queue :: rest =>
    run_queue rcfg conda_sh work_dir (envs_for_queue qidx) 0 queue
      :: run_all_queues_from rcfg conda_sh work_dir envs_for_queue (qidx + 1) rest

/-- Models the queue fan-out of `run` (main_gpus.py lines 761-767): one
worker per queue. -/
def run_all_queues (rcfg : RetryConfig) (conda_sh work_dir : String)
    (queues : List (List SchedTask)) (envs_for_queue : ℕ → ℕ → List StepEnv) :
    List (List SchedTask) :=
  run_all_queues_from rcfg conda_sh work_dir envs_for_queue 0 queues

/-- Models the polling loop of `_wait_for_gpus` (main_gpus.py lines
654-708): at iteration `i` the elapsed time is `i * check_time` (one
`time.sleep(check_time)` per failed poll); the loop body runs while the
elapsed time is below `timeout`, and `find i` is the result of
`find_available_gpus` at poll `i`.  The fuel argument only bounds the
recursion; `timeout + 1` iterations are always enough when
`check_time ≥ 1`. -/
def wait_for_gpus_aux (check_time timeout : ℕ) (find : ℕ → Option (List ℕ)) :
    ℕ → ℕ → Option (List ℕ)
  | _, 0 => none
  | i, fuel + 1 =>
    if i * check_time < timeout then
      match find i with
      | some gpu_ids => some gpu_ids
      | none => wait_for_gpus_aux check_time timeout find (i + 1) fuel
    else none

/-- Models `_wait_for_gpus` (main_gpus.py lines 654-708) with its
default `timeout=3600` behaviour made explicit by the caller. -/
def wait_for_gpus (check_time timeout : ℕ) (find : ℕ → Option (List ℕ)) :
    Option (List ℕ) :=
  wait_for_gpus_aux check_time timeout find 0 (timeout + 1)

/-- Is this event a GPU-release event. -/
def is_release_event : Event → Bool
  | .released _ => true
  | _ => false

/-- Is this event a transition of the task status to `"pending"`. -/
def is_pending_event : Event → Bool
  | .statusSet s => s == "pending"
  | _ => false

/-- Does a release event occur strictly before a pending-status event in
the trace. -/
def released_before_pending (evs : List Event) : Bool :=
  match evs.findIdx? is_release_event, evs.findIdx? is_pending_event with
  | some i, some j => decide (i < j)
  | _, _ => false

/- ========== Command-file parser: src/app/utils/gpus_command_file.py ========== -/

/-- Exceptions the parser's helpers can raise: `int()` raises
`ValueError` on an unparseable token, `line.split()[0]` raises
`IndexError` on an empty split.  These are exactly the exception types
the `except (ValueError, IndexError)` clause of `parse_command_file`
catches. -/
inductive PyExc where
  | valueError
  | indexError
deriving Repr, DecidableEq

instance exceptDecEq {ε α : Type} [DecidableEq ε] [DecidableEq α] :
    DecidableEq (Except ε α)
  | Except.ok a, Except.ok b =>
    if h : a = b then Decidable.isTrue (by rw [h]) else Decidable.isFalse (by simp [h])
  | Except.ok _, Except.error _ => Decidable.isFalse (by simp)
  | Except.error _, Except.ok _ => Decidable.isFalse (by simp)
  | Except.error e, Except.error f =>
    if h : e = f then Decidable.isTrue (by rw [h]) else Decidable.isFalse (by simp [h])

/-- Models Python `str.strip()`: drop whitespace from both ends. -/
def py_strip (s : List Char) : List Char :=
  ((s.dropWhile Char.isWhitespace).reverse.dropWhile Char.isWhitespace).reverse

/-- Models `content.split(sep)` for the two separators the parser uses,
specialised to splitting on a double newline: scan left to right,
cutting at each non-overlapping occurrence of `['\n', '\n']`.  The
accumulator holds the current segment in reverse. -/
def split_blank_aux : List Char → List Char → List (List Char)
  | acc, '\n' :: '\n' :: rest => acc.reverse :: split_blank_aux [] rest
  | acc, c :: rest => split_blank_aux (c :: acc) rest
  | acc, [] => [acc.reverse]

/-- Models `content.split('\n\n')` (gpus_command_file.py line 38). -/
def split_blank_blocks (s : List Char) : List (List Char) :=
  split_blank_aux [] s

/-- Models `block.split('\n')`. -/
def split_lines_aux : List Char → List Char → List (List Char)
  | acc, '\n' :: rest => acc.reverse :: split_lines_aux [] rest
  | acc, c :: rest => split_lines_aux (c :: acc) rest
  | acc, [] => [acc.reverse]

/-- Splits a block into its lines (gpus_command_file.py line 41). -/
def split_lines (s : List Char) : List (List Char) :=
  split_lines_aux [] s

/-- Models Python `str.split()` with no argument: split on runs of
whitespace, discarding empty pieces. -/
def split_ws (s : List Char) : List (List Char) :=
  ((s.splitOnP Char.isWhitespace).map id).filter (fun t => decide (t ≠ []))

/-- Models the first loop of `_parse_number` (gpus_command_file.py
lines 79-82): truncate the line from its first digit character; if
there is no digit the line is left unchanged. -/
def first_digit_tail (line : List Char) : List Char :=
  match line.findIdx? Char.isDigit with
  | some i => line.drop i
  | none => line

/-- Numeric value of a digit string. -/
def digits_to_nat (tok : List Char) : ℕ :=
  tok.foldl (fun n c => 10 * n + (c.toNat - '0'.toNat)) 0

/-- Models `int(tok)` for a whitespace-free token: succeeds exactly on a
non-empty all-digit token, otherwise raises `ValueError`.  (Python also
accepts signs and underscore digit separators; the tokens this parser
feeds in always start with a digit, and no property here depends on the
underscore case.) -/
def py_int (tok : List Char) : Except PyExc ℕ :=
  if tok ≠ [] ∧ tok.all Char.isDigit then Except.ok (digits_to_nat tok)
  else Except.error PyExc.valueError

/-- Models `_parse_number` (gpus_command_file.py lines 76-85): truncate
from the first digit, take the first whitespace-separated token
(`IndexError` if there is none), and parse it as an int. -/
def parse_number (line : List Char) : Except PyExc ℕ :=
  match (split_ws (first_digit_tail line)).head? with
  | none => Except.error PyExc.indexError
  | some tok => py_int tok

/-- Models the per-block line preparation (gpus_command_file.py lines
41-43): split into lines, strip each, drop blanks and `#` comments. -/
def informative_lines (block : List Char) : List (List Char) :=
  ((split_lines (py_strip block)).map py_strip).filter
    (fun l => decide (l ≠ []) && !(l.head? == some '#'))

/-- One parsed task tuple: `(commands, queue_id, gpu_count, memory_gb)`. -/
abbrev TaskTuple := List String × ℕ × ℕ × ℕ

/-- Models the `try` body for one block (gpus_command_file.py lines
48-65): first line is the queue id, last two lines are the GPU count
and the memory requirement, the middle lines are the commands. -/
def parse_block (lines : List (List Char)) : Except PyExc TaskTuple := do
  let queue_id_line := lines.getD 0 []
  let gpu_count_line := lines.getD (lines.length - 2) []
  let memory_line := lines.getD (lines.length - 1) []
  let commands := (((lines.drop 1).dropLast.dropLast).map py_strip).map (fun l => String.mk l)
  let queue_id ← parse_number queue_id_line
  let gpu_count ← parse_number gpu_count_line
  let memory_gb ← parse_number memory_line
  Except.ok (commands, queue_id, gpu_count, memory_gb)

/-- Accumulator of the block loop: the parsed tasks so far and the
warnings logged so far. -/
abbrev ParseAcc := List TaskTuple × List String

/-- Models one iteration of the block loop of `parse_command_file`
(gpus_command_file.py lines 40-71): blocks with fewer than 4
informative lines are skipped (the `continue` at line 46 logs
nothing); a block whose numbers fail to parse is skipped with a
warning; otherwise the task tuple is appended. -/
def process_block (acc : ParseAcc) (block : List Char) : ParseAcc :=
  let lines := informative_lines block
  if lines.length < 4 then acc
  else
    match parse_block lines with
    | Except.ok t => (acc.1 ++ [t], acc.2)
    | Except.error _ => (acc.1, acc.2 ++ ["Failed to parse task block"])

/-- Models `parse_command_file` (gpus_command_file.py lines 10-73) from
the file content onward, also returning the warnings it logs.  The
result tasks appear in block order. -/
def parse_command_file (content : List Char) : ParseAcc :=
  (split_blank_blocks (py_strip content)).foldl process_block ([], [])

/-- Exception-transparent variant of the block loop: uncaught Python
exceptions are modelled as `Except.error`, and the
`except (ValueError, IndexError)` clause is modelled by the two
explicit error cases.  Used to state that the parser confines every
exception its helpers can raise. -/
def process_block_exc (acc : ParseAcc) (block : List Char) : Except PyExc ParseAcc :=
  let lines := informative_lines block
  if lines.length < 4 then Except.ok acc
  else
    match parse_block lines with
    | Except.ok t => Except.ok (acc.1 ++ [t], acc.2)
    | Except.error PyExc.valueError => Except.ok (acc.1, acc.2 ++ ["Failed to parse task block"])
    | Except.error PyExc.indexError => Except.ok (acc.1, acc.2 ++ ["Failed to parse task block"])

/-- Exception-transparent variant of `parse_command_file`. -/
def parse_command_file_exc (content : List Char) : Except PyExc ParseAcc :=
  (split_blank_blocks (py_strip content)).foldlM process_block_exc ([], [])

/- ===================== Helper lemmas ===================== -/

theorem foldl_count_eq_filter_length {α : Type} (P : α → Prop) [DecidablePred P] :
    ∀ (l : List α) (n : ℕ),
      l.foldl (fun acc a => if P a then acc + 1 else acc) n
        = n + (l.filter (fun a => decide (P a))).length := by
  intro l
  induction l with
  | nil => intro n; simp
  | cons a l ih =>
    intro n
    by_cases h : P a <;> simp [List.filter_cons, h, ih] <;> omega

theorem foldl_count₂_eq_filter_length {α : Type} (P Q : α → Prop)
    [DecidablePred P] [DecidablePred Q] :
    ∀ (l : List α) (n : ℕ),
      l.foldl (fun acc a => if P a then acc + 1 else if Q a then acc + 1 else acc) n
        = n + (l.filter (fun a => decide (P a) || decide (Q a))).length := by
  intro l
  induction l with
  | nil => intro n; simp
  | cons a l ih =>
    intro n
    by_cases hp : P a
    · simp [List.filter_cons, hp, ih]; omega
    · by_cases hq : Q a <;> simp [List.filter_cons, hp, hq, ih] <;> omega

/- ===================== C1 ===================== -/

/-- C1.  For every poll, the admission quota computed by
`get_max_allowed_gpus` equals
`max(0, min(max_gpu, max(min_gpu, available - gpu_left)))` where
`available` is the number of candidate devices whose probed free memory
is at least 1 GB, and `can_acquire_more_gpus` admits a request for `n`
more devices iff the number of candidate devices that are in the
ownership map or foreign-occupied, plus `n`, is at most that quota. -/
theorem admission_quota_spec (cfg : ResCfg) (gpus : List ℕ) (occupied : ℕ → Option ℕ)
    (user_procs : ℕ → List ℕ) (free_mem : ℕ → ℚ) (n : ℕ) :
    get_max_allowed_gpus cfg gpus free_mem
      = max 0 (min cfg.max_gpu (max cfg.min_gpu
          (((gpus.filter (fun d => decide ((1 : ℚ) ≤ free_mem d))).length : ℤ) - cfg.gpu_left)))
    ∧ (can_acquire_more_gpus cfg gpus occupied user_procs free_mem n = true ↔
        ((gpus.filter (fun d => (occupied d).isSome || decide (user_procs d ≠ []))).length : ℤ) + n
          ≤ get_max_allowed_gpus cfg gpus free_mem) := by
  constructor
  · unfold get_max_allowed_gpus
    rw [foldl_count_eq_filter_length (fun g => (1 : ℚ) ≤ free_mem g) gpus 0]
    simp
  · unfold can_acquire_more_gpus get_current_user_gpu_count
    rw [foldl_count₂_eq_filter_length (fun g => (occupied g).isSome = true)
        (fun g => user_procs g ≠ []) gpus 0]
    simp

/- ===================== C6 ===================== -/

theorem acquire_gpus_apply (gpu_ids : List ℕ) :
    ∀ (occupied : ℕ → Option ℕ) (queue_id d : ℕ),
      acquire_gpus occupied gpu_ids queue_id d
        = if d ∈ gpu_ids then some queue_id else occupied d := by
  induction gpu_ids with
  | nil => intro occupied queue_id d; simp [acquire_gpus]
  | cons g rest ih =>
    intro occupied queue_id d
    show acquire_gpus (Function.update occupied g (some queue_id)) rest queue_id d = _
    rw [ih]
    by_cases hd : d ∈ rest
    · simp [hd]
    · by_cases hg : d = g <;> simp [hd, hg, Function.update]

theorem release_gpus_apply (gpu_ids : List ℕ) :
    ∀ (occupied : ℕ → Option ℕ) (queue_id d : ℕ),
      release_gpus occupied gpu_ids queue_id d
        = if d ∈ gpu_ids ∧ occupied d = some queue_id then none else occupied d := by
  induction gpu_ids with
  | nil => intro occupied queue_id d; simp [release_gpus]
  | cons g rest ih =>
    intro occupied queue_id d
    show release_gpus
        (if occupied g = some queue_id then Function.update occupied g none else occupied)
        rest queue_id d = _
    rw [ih]
    by_cases hg : d = g
    · subst hg
      by_cases ho : occupied d = some queue_id
      · simp [ho, Function.update]
      · simp only [ho, if_false]
        by_cases hd : d ∈ rest <;> simp [hd, ho]
    · by_cases ho : occupied g = some queue_id
      · have hupd : Function.update occupied g none d = occupied d := by
          simp [Function.update, hg]
        simp only [ho, if_true, hupd]
        by_cases hd : d ∈ rest <;> simp [hd, hg]
      · simp [ho, hg]

/-- C6 (amended).  Releasing removes exactly the mappings among the
device set whose recorded owner is the releasing queue, leaving all
other entries untouched; consequently, when none of the devices is in
the ownership map beforehand, `acquire_gpus` followed by `release_gpus`
restores the map exactly.  (Unconditionally the round trip can lose
entries: `acquire_gpus` overwrites existing owners, see the
counterexample.) -/
theorem ownership_release_exact (occupied : ℕ → Option ℕ) (gpu_ids : List ℕ)
    (queue_id : ℕ) (hfree : ∀ d ∈ gpu_ids, occupied d = none) :
    release_gpus (acquire_gpus occupied gpu_ids queue_id) gpu_ids queue_id = occupied
    ∧ ∀ (m : ℕ → Option ℕ) (d : ℕ),
        release_gpus m gpu_ids queue_id d
          = if d ∈ gpu_ids ∧ m d = some queue_id then none else m d := by
  refine ⟨funext fun d => ?_, fun m d => release_gpus_apply gpu_ids m queue_id d⟩
  rw [release_gpus_apply, acquire_gpus_apply]
  by_cases hd : d ∈ gpu_ids
  · simp [hd, (hfree d hd).symm]
  · simp [hd]

/-- C6 witness: the round trip applied to an initially empty map. -/
theorem ownership_release_exact_witness :
    (∀ d ∈ [0, 1], (fun (_ : ℕ) => (none : Option ℕ)) d = none)
    ∧ (release_gpus (acquire_gpus (fun _ => none) [0, 1] 7) [0, 1] 7 = (fun _ => none)
       ∧ ∀ (m : ℕ → Option ℕ) (d : ℕ),
           release_gpus m [0, 1] 7 d
             = if d ∈ [0, 1] ∧ m d = some 7 then none else m d) :=
  ⟨fun _ _ => rfl,
   ownership_release_exact (fun _ => none) [0, 1] 7 (fun _ _ => rfl)⟩

/-- C6 counterexample: on a map where device 0 is already owned by
queue 1, acquiring `[0]` for queue 2 and then releasing `[0]` for
queue 2 deletes the original entry, so acquire-then-release does not
leave an arbitrary ownership map unchanged. -/
theorem ownership_roundtrip_cx :
    ¬ (release_gpus
        (acquire_gpus (fun d => if d = 0 then some 1 else none) [0] 2) [0] 2
      = (fun d => if d = 0 then some 1 else none)) := by
  intro h
  have h0 := congrFun h 0
  simp [release_gpus, acquire_gpus, Function.update] at h0

/- ===================== C2 ===================== -/

theorem handle_task_failure_fields (rcfg : RetryConfig) (now : ℚ) (task : SchedTask)
    (et : String) :
    (handle_task_failure rcfg now task et).status = "pending"
    ∧ (handle_task_failure rcfg now task et).retry_count = task.retry_count + 1
    ∧ (handle_task_failure rcfg now task et).error_type = et
    ∧ (handle_task_failure rcfg now task et).backoff_until
        = (if (task.retry_count + 1) % rcfg.max_retry_before_backoff = 0
           then now + rcfg.backoff_duration else task.backoff_until)
    ∧ (handle_task_failure rcfg now task et).assigned_gpus = task.assigned_gpus := by
  unfold handle_task_failure
  by_cases h : (task.retry_count + 1) % rcfg.max_retry_before_backoff = 0 <;> simp [h]

theorem exec_commands_first_failure (rcfg : RetryConfig) (now : ℚ)
    (conda_sh work_dir cuda_devices : String) (run_command : ℕ → RunResult)
    (task : SchedTask) (tg : String) :
    ∀ (k : ℕ) (cmds : List String) (i : ℕ),
      k < cmds.length →
      (∀ j, j < k → ∃ out err, run_command (i + j) = RunResult.completed 0 out err) →
      error_kind (run_command (i + k)) = some tg →
      ∃ rs, exec_commands rcfg now conda_sh work_dir cuda_devices run_command task cmds i
          = (handle_task_failure rcfg now task tg, false, rs ++ [Event.statusSet "pending"])
        ∧ ∀ e ∈ rs, ∃ c, e = Event.ran c := by
  intro k
  induction k with
  | zero =>
    intro cmds i hk _ hfail
    match cmds with
    | cmd :: rest =>
      rw [Nat.add_zero] at hfail
      match hrc : run_command i with
      | RunResult.completed code out err =>
        rw [hrc] at hfail
        unfold error_kind at hfail
        by_cases hc : code = 0
        · simp [hc] at hfail
        · simp only [hc, if_pos, ne_eq, not_false_iff, if_true, Option.some.injEq] at hfail
          refine ⟨[Event.ran (build_full_cmd conda_sh cuda_devices (subst_work_dir work_dir cmd))],
            ?_, ?_⟩
          · simp [exec_commands, hrc, hc, hfail]
          · intro e he
            simp at he
            exact ⟨_, he⟩
      | RunResult.timedOut =>
        rw [hrc] at hfail
        unfold error_kind at hfail
        simp only [Option.some.injEq] at hfail
        refine ⟨[Event.ran (build_full_cmd conda_sh cuda_devices (subst_work_dir work_dir cmd))],
          ?_, ?_⟩
        · simp [exec_commands, hrc, hfail]
        · intro e he
          simp at he
          exact ⟨_, he⟩
      | RunResult.raised exc_name =>
        rw [hrc] at hfail
        unfold error_kind at hfail
        simp only [Option.some.injEq] at hfail
        refine ⟨[Event.ran (build_full_cmd conda_sh cuda_devices (subst_work_dir work_dir cmd))],
          ?_, ?_⟩
        · simp [exec_commands, hrc, hfail]
        · intro e he
          simp at he
          exact ⟨_, he⟩
  | succ k ih =>
    intro cmds i hk hsucc hfail
    match cmds with
    | cmd :: rest =>
      obtain ⟨out, err, hrc⟩ := hsucc 0 (Nat.succ_pos k)
      rw [Nat.add_zero] at hrc
      have hrest : k < rest.length := by simpa using Nat.lt_of_succ_lt_succ hk
      have hsucc' : ∀ j, j < k → ∃ out err, run_command (i + 1 + j) = RunResult.completed 0 out err := by
        intro j hj
        have := hsucc (j + 1) (Nat.succ_lt_succ hj)
        simpa [Nat.add_comm, Nat.add_assoc, Nat.add_left_comm] using this
      have hfail' : error_kind (run_command (i + 1 + k)) = some tg := by
        have : i + 1 + k = i + (k + 1) := by omega
        rw [this]
        exact hfail
      obtain ⟨rs, heq, hran⟩ := ih rest (i + 1) hrest hsucc' hfail'
      refine ⟨Event.ran (build_full_cmd conda_sh cuda_devices (subst_work_dir work_dir cmd)) :: rs,
        ?_, ?_⟩
      · simp [exec_commands, hrc, heq]
      · intro e he
        rcases List.mem_cons.mp he with h | h
        · exact ⟨_, h⟩
        · exact hran e h

/-- C2 (amended).  For every recoverable command failure in
`execute_task` (the first failing command exits non-zero, times out, or
raises), the task's `error_type` is set to the tag `exit_code_<n>`,
`timeout`, or the exception class name respectively, `retry_count` is
incremented by exactly one, the task's state returns to `pending`, and
`backoff_until` is set to `now + backoff_duration` iff the incremented
`retry_count` is a multiple of `max_retry_before_backoff`.  The held
devices are released AFTER the state transition to `pending` (the
release sits in the caller's `finally` block, which runs once
`execute_task` has already moved the task back to `pending`): in the
event trace the release is the final event, after the pending
transition. -/
theorem task_failure_spec (rcfg : RetryConfig) (now : ℚ) (conda_sh work_dir : String)
    (run_command : ℕ → RunResult) (task : SchedTask) (gpu_ids : List ℕ) (k : ℕ) (tg : String)
    (hpos : 0 < rcfg.max_retry_before_backoff)
    (hk : k < task.commands.length)
    (hsucc : ∀ j, j < k → ∃ out err, run_command j = RunResult.completed 0 out err)
    (hfail : error_kind (run_command k) = some tg) :
    (attempt_task rcfg now conda_sh work_dir run_command task gpu_ids).2.1 = false
    ∧ (attempt_task rcfg now conda_sh work_dir run_command task gpu_ids).1.error_type = tg
    ∧ (attempt_task rcfg now conda_sh work_dir run_command task gpu_ids).1.retry_count
        = task.retry_count + 1
    ∧ (attempt_task rcfg now conda_sh work_dir run_command task gpu_ids).1.status = "pending"
    ∧ (attempt_task rcfg now conda_sh work_dir run_command task gpu_ids).1.backoff_until
        = (if (task.retry_count + 1) % rcfg.max_retry_before_backoff = 0
           then now + rcfg.backoff_duration else task.backoff_until)
    ∧ ∃ rs, (attempt_task rcfg now conda_sh work_dir run_command task gpu_ids).2.2
          = Event.statusSet "running"
              :: (rs ++ [Event.statusSet "pending", Event.released gpu_ids])
        ∧ ∀ e ∈ rs, ∃ c, e = Event.ran c := by
  have hsucc0 : ∀ j, j < k → ∃ out err, run_command (0 + j) = RunResult.completed 0 out err := by
    intro j hj
    simpa using hsucc j hj
  have hfail0 : error_kind (run_command (0 + k)) = some tg := by simpa using hfail
  obtain ⟨rs, heq, hran⟩ := exec_commands_first_failure rcfg now conda_sh work_dir
    (cuda_devices_str gpu_ids) run_command
    { task with assigned_gpus := gpu_ids, status := "running" } tg k task.commands 0
    hk hsucc0 hfail0
  obtain ⟨h1, h2, h3, h4, _⟩ := handle_task_failure_fields rcfg now
    { task with assigned_gpus := gpu_ids, status := "running" } tg
  simp only [attempt_task, execute_task, heq]
  refine ⟨trivial, ?_, ?_, ?_, ?_, rs, ?_, hran⟩
  · simpa using h3
  · simpa using h2
  · simpa using h1
  · simpa using h4
  · simp

/-- C2 witness: a one-command task whose command times out; tag
`timeout`, retry count 0 → 1, no backoff entry for
`max_retry_before_backoff = 3`. -/
theorem task_failure_spec_witness :
    (0 < 3
      ∧ 0 < ([ "c" ] : List String).length
      ∧ (∀ j : ℕ, j < 0 → ∃ out err, (fun _ => RunResult.timedOut) j = RunResult.completed 0 out err)
      ∧ error_kind ((fun (_ : ℕ) => RunResult.timedOut) 0) = some "timeout")
    ∧ ((attempt_task ⟨3, 600⟩ 0 "cs" "wd" (fun _ => RunResult.timedOut)
          { commands := ["c"], queue_id := 0, gpu_count := 1, estimated_memory_gb := 1 }
          [0]).2.1 = false
       ∧ (attempt_task ⟨3, 600⟩ 0 "cs" "wd" (fun _ => RunResult.timedOut)
          { commands := ["c"], queue_id := 0, gpu_count := 1, estimated_memory_gb := 1 }
          [0]).1.error_type = "timeout") := by
  have h := task_failure_spec ⟨3, 600⟩ 0 "cs" "wd" (fun _ => RunResult.timedOut)
    { commands := ["c"], queue_id := 0, gpu_count := 1, estimated_memory_gb := 1 }
    [0] 0 "timeout" (by decide) (by decide)
    (fun j hj => absurd hj (Nat.not_lt_zero j)) rfl
  exact ⟨⟨by decide, by decide, fun j hj => absurd hj (Nat.not_lt_zero j), rfl⟩,
    h.1, h.2.1⟩

/-- C2 counterexample: in the concrete failing run the devices are
released strictly AFTER the task's state transition back to `pending`,
not before — refuting the claim's release-before-transition ordering.
The trace contains both a release event and a pending transition, and
the release does not precede the pending transition. -/
theorem task_failure_release_order_cx :
    released_before_pending
        ((attempt_task ⟨3, 600⟩ 0 "cs" "wd" (fun _ => RunResult.timedOut)
          { commands := ["c"], queue_id := 0, gpu_count := 1, estimated_memory_gb := 1 }
          [0]).2.2) = false
    ∧ ((attempt_task ⟨3, 600⟩ 0 "cs" "wd" (fun _ => RunResult.timedOut)
          { commands := ["c"], queue_id := 0, gpu_count := 1, estimated_memory_gb := 1 }
          [0]).2.2).findIdx? is_release_event ≠ none
    ∧ ((attempt_task ⟨3, 600⟩ 0 "cs" "wd" (fun _ => RunResult.timedOut)
          { commands := ["c"], queue_id := 0, gpu_count := 1, estimated_memory_gb := 1 }
          [0]).2.2).findIdx? is_pending_event ≠ none := by
  refine ⟨?_, ?_, ?_⟩ <;> decide

/- ===================== C3 ===================== -/

/-- C3 (amended).  For every task whose `retry_count` has reached the
fixed ceiling of 100, the retry loop gives up immediately and reports
failure, leaving the task unchanged — in particular still `pending`,
never marked `failed` — and the worker aborts its queue: no subsequent
task of that queue is attempted (the remaining tasks are returned
exactly as they were). -/
theorem retry_ceiling_spec (rcfg : RetryConfig) (conda_sh work_dir : String)
    (envs_for : ℕ → List StepEnv) (idx : ℕ) (task : SchedTask) (rest : List SchedTask)
    (hceil : 100 ≤ task.retry_count) (hnc : task.status ≠ "completed") :
    execute_task_with_retry rcfg conda_sh work_dir task (envs_for idx) = (task, false)
    ∧ run_queue rcfg conda_sh work_dir envs_for idx (task :: rest) = task :: rest := by
  have hloop : execute_task_with_retry rcfg conda_sh work_dir task (envs_for idx)
      = (task, false) := by
    match henv : envs_for idx with
    | [] => rfl
    | env :: tail => simp [execute_task_with_retry, hceil]
  refine ⟨hloop, ?_⟩
  simp [run_queue, hnc, hloop]

/-- C3 witness: a pending task with `retry_count = 100` followed by one
more task; the queue stops and the follow-up task stays untouched. -/
theorem retry_ceiling_spec_witness :
    (100 ≤ ({ commands := ["c"], queue_id := 0, gpu_count := 1, estimated_memory_gb := 1,
              retry_count := 100 } : SchedTask).retry_count
      ∧ ({ commands := ["c"], queue_id := 0, gpu_count := 1, estimated_memory_gb := 1,
              retry_count := 100 } : SchedTask).status ≠ "completed")
    ∧ (execute_task_with_retry ⟨3, 600⟩ "cs" "wd"
          { commands := ["c"], queue_id := 0, gpu_count := 1, estimated_memory_gb := 1,
            retry_count := 100 } ((fun _ => []) 0)
        = ({ commands := ["c"], queue_id := 0, gpu_count := 1, estimated_memory_gb := 1,
             retry_count := 100 }, false)
       ∧ run_queue ⟨3, 600⟩ "cs" "wd" (fun _ => []) 0
          [{ commands := ["c"], queue_id := 0, gpu_count := 1, estimated_memory_gb := 1,
             retry_count := 100 },
           { commands := ["d"], queue_id := 0, gpu_count := 1, estimated_memory_gb := 1 }]
        = [{ commands := ["c"], queue_id := 0, gpu_count := 1, estimated_memory_gb := 1,
             retry_count := 100 },
           { commands := ["d"], queue_id := 0, gpu_count := 1, estimated_memory_gb := 1 }]) :=
  ⟨⟨by decide, by decide⟩,
   retry_ceiling_spec ⟨3, 600⟩ "cs" "wd" (fun _ => []) 0
     { commands := ["c"], queue_id := 0, gpu_count := 1, estimated_memory_gb := 1,
       retry_count := 100 }
     [{ commands := ["d"], queue_id := 0, gpu_count := 1, estimated_memory_gb := 1 }]
     (by decide) (by decide)⟩

/-- C3 counterexample: a pending task that has reached the ceiling
(`retry_count = 100`) is NOT transitioned to the permanent `failed`
state — after the retry loop gives up its status is still `"pending"`,
refuting the claimed `pending → failed` transition (nothing in the
scheduler ever writes status `"failed"`). -/
theorem retry_ceiling_no_failed_state_cx :
    (execute_task_with_retry ⟨3, 600⟩ "cs" "wd"
        { commands := ["c"], queue_id := 0, gpu_count := 1, estimated_memory_gb := 1,
          retry_count := 100 }
        [⟨0, none, fun _ => RunResult.timedOut⟩]).1.status = "pending"
    ∧ (execute_task_with_retry ⟨3, 600⟩ "cs" "wd"
        { commands := ["c"], queue_id := 0, gpu_count := 1, estimated_memory_gb := 1,
          retry_count := 100 }
        [⟨0, none, fun _ => RunResult.timedOut⟩]).2 = false
    ∧ "pending" ≠ "failed" := by
  refine ⟨?_, ?_, ?_⟩ <;> decide

/- ===================== C7 ===================== -/

theorem wait_for_gpus_aux_none (check_time timeout : ℕ) (find : ℕ → Option (List ℕ))
    (hfind : ∀ i, find i = none) :
    ∀ (fuel i : ℕ), wait_for_gpus_aux check_time timeout find i fuel = none := by
  intro fuel
  induction fuel with
  | zero => intro i; rfl
  | succ fuel ih =>
    intro i
    unfold wait_for_gpus_aux
    by_cases h : i * check_time < timeout
    · simp only [h, if_true, hfind i]
      exact ih (i + 1)
    · simp [h]

theorem run_all_queues_from_getElem (rcfg : RetryConfig) (conda_sh work_dir : String)
    (envs_for_queue : ℕ → ℕ → List StepEnv) :
    ∀ (queues : List (List SchedTask)) (qidx j : ℕ),
      (run_all_queues_from rcfg conda_sh work_dir envs_for_queue qidx queues)[j]?
        = (queues[j]?).map (run_queue rcfg conda_sh work_dir (envs_for_queue (qidx + j)) 0) := by
  intro queues
  induction queues with
  | nil => intro qidx j; simp [run_all_queues_from]
  | cons q rest ih =>
    intro qidx j
    match j with
    | 0 => simp [run_all_queues_from]
    | j + 1 =>
      have hstep : run_all_queues_from rcfg conda_sh work_dir envs_for_queue qidx (q :: rest)
          = run_queue rcfg conda_sh work_dir (envs_for_queue qidx) 0 q
              :: run_all_queues_from rcfg conda_sh work_dir envs_for_queue (qidx + 1) rest := rfl
      rw [hstep, List.getElem?_cons_succ, List.getElem?_cons_succ, ih (qidx + 1) j]
      have harith : qidx + 1 + j = qidx + (j + 1) := by omega
      rw [harith]

/-- C7 (amended).  When the device-wait loop's poll fails for the whole
3600-second window, the wait returns `none`; the worker then aborts its
own queue, returning the task exactly as it was — in particular the
task's last-error tag is NOT set to anything (no resource-starvation tag
exists in the code; the task is unchanged) — and no subsequent task of
that queue is attempted, while every other queue's outcome is computed
from its own task list and environment stream alone and therefore
continues unaffected. -/
theorem wait_timeout_spec (check_time : ℕ) (find : ℕ → Option (List ℕ))
    (hfind : ∀ i, find i = none) :
    wait_for_gpus check_time 3600 find = none
    ∧ (∀ (rcfg : RetryConfig) (conda_sh work_dir : String) (task : SchedTask)
         (env : StepEnv) (rest : List StepEnv),
         env.wait_result = none → task.retry_count < 100 →
         ¬(0 < task.backoff_until ∧ env.now < task.backoff_until) →
         execute_task_with_retry rcfg conda_sh work_dir task (env :: rest) = (task, false))
    ∧ (∀ (rcfg : RetryConfig) (conda_sh work_dir : String) (envs_for : ℕ → List StepEnv)
         (idx : ℕ) (task : SchedTask) (rest : List SchedTask),
         task.status ≠ "completed" →
         execute_task_with_retry rcfg conda_sh work_dir task (envs_for idx) = (task, false) →
         run_queue rcfg conda_sh work_dir envs_for idx (task :: rest) = task :: rest)
    ∧ (∀ (rcfg : RetryConfig) (conda_sh work_dir : String)
         (queues : List (List SchedTask)) (envs_for_queue : ℕ → ℕ → List StepEnv) (j : ℕ),
         (run_all_queues rcfg conda_sh work_dir queues envs_for_queue)[j]?
           = (queues[j]?).map (run_queue rcfg conda_sh work_dir (envs_for_queue j) 0)) := by
  refine ⟨wait_for_gpus_aux_none check_time 3600 find hfind 3601 0, ?_, ?_, ?_⟩
  · intro rcfg conda_sh work_dir task env rest hw hlt hbo
    simp [execute_task_with_retry, Nat.not_le.mpr hlt, hbo, hw]
  · intro rcfg conda_sh work_dir envs_for idx task rest hnc hloop
    simp [run_queue, hnc, hloop]
  · intro rcfg conda_sh work_dir queues envs_for_queue j
    have := run_all_queues_from_getElem rcfg conda_sh work_dir envs_for_queue queues 0 j
    simpa [run_all_queues] using this

/-- C7 witness: a poll that never finds devices, and a concrete aborted
queue of two tasks. -/
theorem wait_timeout_spec_witness :
    (∀ i : ℕ, (fun (_ : ℕ) => (none : Option (List ℕ))) i = none)
    ∧ wait_for_gpus 5 3600 (fun _ => none) = none :=
  ⟨fun _ => rfl, (wait_timeout_spec 5 (fun _ => none) (fun _ => rfl)).1⟩

/-- C7 counterexample: after the wait times out the worker aborts, but
the task's last-error tag is NOT a resource-starvation tag — it is left
exactly as it was (here, the empty string), refuting the claimed
last-error tagging. -/
theorem wait_timeout_no_tag_cx :
    execute_task_with_retry ⟨3, 600⟩ "cs" "wd"
        { commands := ["c"], queue_id := 0, gpu_count := 1, estimated_memory_gb := 1 }
        [⟨0, none, fun _ => RunResult.timedOut⟩]
      = ({ commands := ["c"], queue_id := 0, gpu_count := 1, estimated_memory_gb := 1 }, false)
    ∧ ({ commands := ["c"], queue_id := 0, gpu_count := 1,
         estimated_memory_gb := 1 } : SchedTask).error_type = "" := by
  refine ⟨?_, ?_⟩ <;> decide

/- ===================== C9 ===================== -/

theorem process_block_exc_ok (acc : ParseAcc) (block : List Char) :
    process_block_exc acc block = Except.ok (process_block acc block) := by
  unfold process_block_exc process_block
  by_cases h : (informative_lines block).length < 4
  · simp [h]
  · simp only [h, if_false]
    rcases hpb : parse_block (informative_lines block) with e | t
    · cases e <;> simp [hpb]
    · simp [hpb]

theorem foldl_process_block_exc_ok :
    ∀ (blocks : List (List Char)) (acc : ParseAcc),
      blocks.foldlM process_block_exc acc = Except.ok (blocks.foldl process_block acc) := by
  intro blocks
  induction blocks with
  | nil => intro acc; rfl
  | cons b rest ih =>
    intro acc
    calc (b :: rest).foldlM process_block_exc acc
        = process_block_exc acc b >>= fun a => rest.foldlM process_block_exc a := rfl
      _ = Except.ok (process_block acc b) >>= fun a => rest.foldlM process_block_exc a := by
          rw [process_block_exc_ok]
      _ = rest.foldlM process_block_exc (process_block acc b) := rfl
      _ = Except.ok (rest.foldl process_block (process_block acc b)) := ih _
      _ = Except.ok ((b :: rest).foldl process_block acc) := rfl

/-- C9 (amended).  A block with fewer than the required four
non-comment lines is skipped SILENTLY — it contributes no task and also
no warning (the `continue` at gpus_command_file.py line 46 logs
nothing); and the parser never propagates an exception for any file
content: the only exceptions its helpers can raise (`ValueError` from
`int()`, `IndexError` from the empty split) are all caught by the
per-block handler, so the exception-transparent run always returns
`ok`. -/
theorem parser_robustness_spec :
    (∀ (acc : ParseAcc) (block : List Char),
       (informative_lines block).length < 4 → process_block acc block = acc)
    ∧ (∀ content : List Char,
        parse_command_file_exc content = Except.ok (parse_command_file content)) := by
  constructor
  · intro acc block h
    simp [process_block, h]
  · intro content
    unfold parse_command_file_exc parse_command_file
    exact foldl_process_block_exc_ok _ _

/-- C9 witness: the three-line block `1 / cmd / 2` is short, is skipped,
and produces no task and no warning; the exception-transparent parse of
that content returns `ok`. -/
theorem parser_robustness_spec_witness :
    ((informative_lines ("1\ncmd\n2".data)).length < 4
      ∧ process_block ([], []) ("1\ncmd\n2".data) = ([], []))
    ∧ parse_command_file_exc ("1\ncmd\n2".data)
        = Except.ok (parse_command_file ("1\ncmd\n2".data)) :=
  ⟨⟨by decide, parser_robustness_spec.1 ([], []) ("1\ncmd\n2".data) (by decide)⟩,
   parser_robustness_spec.2 ("1\ncmd\n2".data)⟩

/-- C9 counterexample: the content consisting of one block with only 3
non-comment lines is skipped, but WITHOUT a warning — the parser's
result has no task and an empty warning list, refuting the claimed
"skipped with a warning". -/
theorem parser_short_block_no_warning_cx :
    (informative_lines ("1\ncmd\n2".data)).length = 3
    ∧ parse_command_file ("1\ncmd\n2".data) = ([], []) := by
  refine ⟨?_, ?_⟩ <;> decide

/- ===================== Selector helper lemmas ===================== -/

theorem filterMap_self_sublist {α : Type} (f : α → Option α)
    (hf : ∀ a b, f a = some b → b = a) :
    ∀ l : List α, (l.filterMap f).Sublist l := by
  intro l
  induction l with
  | nil => simp
  | cons a l ih =>
    rcases hfa : f a with _ | b
    · rw [List.filterMap_cons_none hfa]
      exact ih.cons a
    · rw [List.filterMap_cons_some hfa, hf a b hfa]
      exact ih.cons₂ a

theorem gpu_stats_dict_mem {source : ℕ → Option GPUStats} {gpu_ids : List ℕ}
    {p : ℕ × GPUStats} (hp : p ∈ gpu_stats_dict source gpu_ids) :
    p.1 ∈ gpu_ids ∧ source p.1 = some p.2 := by
  unfold gpu_stats_dict at hp
  rcases List.mem_filterMap.mp hp with ⟨id, hid, hmap⟩
  rcases Option.map_eq_some'.mp hmap with ⟨s, hs, hps⟩
  cases hps
  exact ⟨hid, hs⟩

theorem gpu_stats_dict_keys_sublist (source : ℕ → Option GPUStats) (gpu_ids : List ℕ) :
    ((gpu_stats_dict source gpu_ids).map Prod.fst).Sublist gpu_ids := by
  unfold gpu_stats_dict
  rw [List.map_filterMap]
  refine filterMap_self_sublist _ ?_ gpu_ids
  intro a b hab
  rcases Option.map_eq_some'.mp hab with ⟨p, hp, hpb⟩
  rcases Option.map_eq_some'.mp hp with ⟨s, _, hps⟩
  rw [← hps] at hpb
  exact hpb.symm

theorem select_best_gpus_shape (mode : Bool) (gs : ℕ → ℕ → Option GPUStats)
    (ids : List ℕ) (count : ℕ) (mem : ℚ) (us : Bool) (sc : ℕ) :
    select_best_gpus mode gs ids count mem us sc = []
    ∨ select_best_gpus mode gs ids count mem us sc
        = ((((valid_gpus (gpu_stats_dict (stats_source gs us sc) ids) mem).map
              (fun p => (p.1, calculate_priority mode p.2))).insertionSort
                scoredLe).map Prod.fst).take count := by
  unfold select_best_gpus
  by_cases h1 : ids.isEmpty || count == 0
  · left; simp [h1]
  · simp only [h1, Bool.false_eq_true, if_false]
    by_cases h2 : (gpu_stats_dict (stats_source gs us sc) ids).isEmpty
    · left; simp [h2]
    · simp only [h2, Bool.false_eq_true, if_false]
      by_cases h3 : (valid_gpus (gpu_stats_dict (stats_source gs us sc) ids) mem).isEmpty
      · left; simp [h3]
      · right; simp [h3]

theorem mem_select_best_gpus {mode : Bool} {gs : ℕ → ℕ → Option GPUStats}
    {ids : List ℕ} {count : ℕ} {mem : ℚ} {us : Bool} {sc : ℕ} {d : ℕ}
    (hd : d ∈ select_best_gpus mode gs ids count mem us sc) :
    ∃ s, (d, s) ∈ gpu_stats_dict (stats_source gs us sc) ids ∧ mem ≤ s.memory_free := by
  rcases select_best_gpus_shape mode gs ids count mem us sc with h | h
  · rw [h] at hd
    exact absurd hd (List.not_mem_nil d)
  · rw [h] at hd
    have hd2 := (List.take_sublist _ _).mem hd
    rcases List.mem_map.mp hd2 with ⟨q, hq, hq1⟩
    have hq3 : q ∈ (valid_gpus (gpu_stats_dict (stats_source gs us sc) ids) mem).map
        (fun p => (p.1, calculate_priority mode p.2)) :=
      (List.perm_insertionSort scoredLe _).mem_iff.mp hq
    rcases List.mem_map.mp hq3 with ⟨p, hp, hpq⟩
    have hpd : p.1 = d := by rw [← hq1, ← hpq]
    have hpv := hp
    unfold valid_gpus at hpv
    have hmemf := List.of_mem_filter hpv
    have hdict := List.mem_of_mem_filter hpv
    refine ⟨p.2, ?_, by simpa using hmemf⟩
    rw [← hpd]
    exact hdict

theorem select_best_gpus_length (mode : Bool) (gs : ℕ → ℕ → Option GPUStats)
    (ids : List ℕ) (count : ℕ) (mem : ℚ) (us : Bool) (sc : ℕ) :
    (select_best_gpus mode gs ids count mem us sc).length ≤ min count ids.length := by
  rcases select_best_gpus_shape mode gs ids count mem us sc with h | h
  · simp [h]
  · rw [h, List.length_take]
    refine min_le_min le_rfl ?_
    rw [List.length_map, List.length_insertionSort, List.length_map]
    calc (valid_gpus (gpu_stats_dict (stats_source gs us sc) ids) mem).length
        ≤ (gpu_stats_dict (stats_source gs us sc) ids).length :=
          List.length_filter_le _ _
      _ ≤ ids.length := by
          have := List.Sublist.length_le (gpu_stats_dict_keys_sublist (stats_source gs us sc) ids)
          simpa using this

theorem select_best_gpus_nodup {mode : Bool} {gs : ℕ → ℕ → Option GPUStats}
    {ids : List ℕ} {count : ℕ} {mem : ℚ} {us : Bool} {sc : ℕ}
    (hnd : ids.Nodup) : (select_best_gpus mode gs ids count mem us sc).Nodup := by
  rcases select_best_gpus_shape mode gs ids count mem us sc with h | h
  · rw [h]; exact List.nodup_nil
  · rw [h]
    refine List.Nodup.sublist (List.take_sublist _ _) ?_
    have hperm : ((((valid_gpus (gpu_stats_dict (stats_source gs us sc) ids) mem).map
          (fun p => (p.1, calculate_priority mode p.2))).insertionSort scoredLe).map Prod.fst).Perm
        (((valid_gpus (gpu_stats_dict (stats_source gs us sc) ids) mem).map
          (fun p => (p.1, calculate_priority mode p.2))).map Prod.fst) :=
      (List.perm_insertionSort scoredLe _).map Prod.fst
    refine hperm.nodup_iff.mpr ?_
    rw [List.map_map]
    have heq : (Prod.fst ∘ fun (p : ℕ × GPUStats) => (p.1, calculate_priority mode p.2))
        = Prod.fst := rfl
    rw [heq]
    have hsub : ((valid_gpus (gpu_stats_dict (stats_source gs us sc) ids) mem).map
          Prod.fst).Sublist
        ((gpu_stats_dict (stats_source gs us sc) ids).map Prod.fst) :=
      List.Sublist.map Prod.fst (List.filter_sublist _)
    exact hnd.sublist (hsub.trans (gpu_stats_dict_keys_sublist _ _))

/- ===================== C5 ===================== -/

/-- C5.  For every call to the selector, the returned list has length
at most `min(count, number of candidates)`, every returned device id is
drawn from the candidate list, and every returned device's recorded
(averaged, when sampling) free memory is at least the required memory
— devices below it are dropped by the filter. -/
theorem selector_output_spec (mode : Bool) (gs : ℕ → ℕ → Option GPUStats)
    (ids : List ℕ) (count : ℕ) (mem : ℚ) (us : Bool) (sc : ℕ) :
    (select_best_gpus mode gs ids count mem us sc).length ≤ min count ids.length
    ∧ ∀ d ∈ select_best_gpus mode gs ids count mem us sc,
        d ∈ ids
        ∧ ∃ s, (d, s) ∈ gpu_stats_dict (stats_source gs us sc) ids
            ∧ mem ≤ s.memory_free := by
  refine ⟨select_best_gpus_length mode gs ids count mem us sc, ?_⟩
  intro d hd
  rcases mem_select_best_gpus hd with ⟨s, hs, hmem⟩
  exact ⟨(gpu_stats_dict_mem hs).1, s, hs, hmem⟩

/- ===================== C10 ===================== -/

/-- C10.  For every call to `find_available_gpus` with a duplicate-free
candidate device list, the result is either `none` or a list of exactly
`gpu_count` distinct device ids, each a member of the candidate list;
and the result is `none` whenever the admission check fails. -/
theorem find_available_gpus_spec (maximize msm : Bool) (cfg : ResCfg) (gpus : List ℕ)
    (occupied : ℕ → Option ℕ) (user_procs : ℕ → List ℕ) (free_mem : ℕ → ℚ)
    (gs : ℕ → ℕ → Option GPUStats) (gpu_count : ℕ) (required_memory : ℚ)
    (hnd : gpus.Nodup) :
    (∀ l, find_available_gpus maximize msm cfg gpus occupied user_procs free_mem gs
            gpu_count required_memory = some l →
        l.length = gpu_count ∧ l.Nodup ∧ ∀ d ∈ l, d ∈ gpus)
    ∧ (can_acquire_more_gpus cfg gpus occupied user_procs free_mem gpu_count = false →
        find_available_gpus maximize msm cfg gpus occupied user_procs free_mem gs
          gpu_count required_memory = none) := by
  unfold find_available_gpus
  by_cases hca : can_acquire_more_gpus cfg gpus occupied user_procs free_mem gpu_count = false
  · simp only [if_pos hca]
    refine ⟨fun l hl => ?_, fun _ => trivial⟩
    exact Option.noConfusion hl
  · simp only [if_neg hca]
    have hcand_nd : (gpus.filter (fun gpu_id =>
        (maximize || !(occupied gpu_id).isSome)
          && decide (required_memory ≤ free_mem gpu_id)
          && (maximize || (user_procs gpu_id).isEmpty))).Nodup := hnd.filter _
    have hcand_sub : ∀ d ∈ gpus.filter (fun gpu_id =>
        (maximize || !(occupied gpu_id).isSome)
          && decide (required_memory ≤ free_mem gpu_id)
          && (maximize || (user_procs gpu_id).isEmpty)), d ∈ gpus :=
      fun d hd => List.mem_of_mem_filter hd
    refine ⟨?_, fun hfalse => absurd hfalse hca⟩
    intro l hl
    by_cases h1 : (gpus.filter (fun gpu_id =>
        (maximize || !(occupied gpu_id).isSome)
          && decide (required_memory ≤ free_mem gpu_id)
          && (maximize || (user_procs gpu_id).isEmpty))).length < gpu_count
    · rw [if_pos h1] at hl
      exact Option.noConfusion hl
    · rw [if_neg h1] at hl
      by_cases h2 : ((gpus.filter (fun gpu_id =>
          (maximize || !(occupied gpu_id).isSome)
            && decide (required_memory ≤ free_mem gpu_id)
            && (maximize || (user_procs gpu_id).isEmpty))).length == gpu_count) = true
      · rw [if_pos h2] at hl
        cases hl
        exact ⟨by simpa using h2, hcand_nd, hcand_sub⟩
      · rw [if_neg h2] at hl
        have hne : (gpus.filter (fun gpu_id =>
            (maximize || !(occupied gpu_id).isSome)
              && decide (required_memory ≤ free_mem gpu_id)
              && (maximize || (user_procs gpu_id).isEmpty))).length ≠ gpu_count :=
          fun he => h2 (by rw [he]; simp)
        have hgt : gpu_count < (gpus.filter (fun gpu_id =>
            (maximize || !(occupied gpu_id).isSome)
              && decide (required_memory ≤ free_mem gpu_id)
              && (maximize || (user_procs gpu_id).isEmpty))).length := by
          omega
        by_cases h3 : gpu_count ≤ (select_gpus gs (gpus.filter (fun gpu_id =>
            (maximize || !(occupied gpu_id).isSome)
              && decide (required_memory ≤ free_mem gpu_id)
              && (maximize || (user_procs gpu_id).isEmpty))) gpu_count msm
              required_memory).length
        · rw [if_pos h3] at hl
          cases hl
          refine ⟨?_, ?_, ?_⟩
          · rw [List.length_take]
            exact min_eq_left h3
          · exact List.Nodup.sublist (List.take_sublist _ _)
              (select_best_gpus_nodup hcand_nd)
          · intro d hd
            have hd2 := (List.take_sublist _ _).mem hd
            rcases mem_select_best_gpus hd2 with ⟨s, hs, _⟩
            exact hcand_sub _ (gpu_stats_dict_mem hs).1
        · rw [if_neg h3] at hl
          cases hl
          refine ⟨?_, ?_, ?_⟩
          · rw [List.length_take]
            exact min_eq_left (Nat.le_of_lt hgt)
          · exact List.Nodup.sublist (List.take_sublist _ _) hcand_nd
          · intro d hd
            exact hcand_sub _ ((List.take_sublist _ _).mem hd)

/-- C10 witness: a concrete duplicate-free candidate list. -/
theorem find_available_gpus_spec_witness :
    ([0, 1] : List ℕ).Nodup
    ∧ ((∀ l, find_available_gpus false true ⟨0, 3, 8⟩ [0, 1] (fun _ => none)
            (fun _ => []) (fun _ => 10) (fun _ _ => none) 1 2 = some l →
          l.length = 1 ∧ l.Nodup ∧ ∀ d ∈ l, d ∈ ([0, 1] : List ℕ))
        ∧ (can_acquire_more_gpus ⟨0, 3, 8⟩ [0, 1] (fun _ => none) (fun _ => [])
              (fun _ => 10) 1 = false →
            find_available_gpus false true ⟨0, 3, 8⟩ [0, 1] (fun _ => none)
              (fun _ => []) (fun _ => 10) (fun _ _ => none) 1 2 = none)) :=
  ⟨by decide,
   find_available_gpus_spec false true ⟨0, 3, 8⟩ [0, 1] (fun _ => none) (fun _ => [])
     (fun _ => 10) (fun _ _ => none) 1 2 (by decide)⟩

/- ===================== C4 ===================== -/

theorem gpu_stats_dict_lookup (g : ℕ → Option GPUStats) :
    ∀ (ids : List ℕ) (d : ℕ) (s : GPUStats), (d, s) ∈ gpu_stats_dict g ids →
      (gpu_stats_dict g ids).lookup d = some s := by
  intro ids
  induction ids with
  | nil => intro d s h; exact absurd h (List.not_mem_nil _)
  | cons a rest ih =>
    intro d s h
    rcases hga : g a with _ | sa
    · rw [show gpu_stats_dict g (a :: rest) = gpu_stats_dict g rest from
        List.filterMap_cons_none (by simp [hga])] at h ⊢
      exact ih d s h
    · rw [show gpu_stats_dict g (a :: rest) = (a, sa) :: gpu_stats_dict g rest from
        List.filterMap_cons_some (by simp [hga])] at h ⊢
      rcases List.mem_cons.mp h with heq | hmem
      · cases heq
        simp [List.lookup]
      · by_cases hda : d = a
        · subst hda
          have := (gpu_stats_dict_mem hmem).2
          rw [hga] at this
          cases this
          simp [List.lookup]
        · simp only [List.lookup, beq_iff_eq, hda, if_false]
          have : (d == a) = false := by simp [hda]
          rw [this]
          exact ih d s hmem

/-- C4 (amended).  The selector's output is ordered ascending by the
priority pair `(primary, secondary)` (as computed by
`calculate_priority` from the recorded stats), but devices with equal
priority pairs keep the CANDIDATE-LIST order (Python's sort is stable),
not device-id order; consequently, when the candidate list itself is
ascending by device id and all priority pairs are equal, the selector
returns the memory-surviving devices with the smallest ids, in
ascending order.  (With a non-ascending candidate list the id
tie-break fails, see the counterexample.) -/
theorem selector_order_spec (mode : Bool) (gs : ℕ → ℕ → Option GPUStats)
    (ids : List ℕ) (count : ℕ) (mem : ℚ) (us : Bool) (sc : ℕ) :
    (select_best_gpus mode gs ids count mem us sc).Pairwise
        (fun a b =>
          pairLe (priority_in_dict mode (gpu_stats_dict (stats_source gs us sc) ids) a)
                 (priority_in_dict mode (gpu_stats_dict (stats_source gs us sc) ids) b))
    ∧ ∀ c : ℚ × ℚ, ids.Pairwise (· < ·) →
        (∀ p ∈ gpu_stats_dict (stats_source gs us sc) ids,
          calculate_priority mode p.2 = c) →
        select_best_gpus mode gs ids count mem us sc
            = (surviving_ids (gpu_stats_dict (stats_source gs us sc) ids) mem).take count
          ∧ (surviving_ids (gpu_stats_dict (stats_source gs us sc) ids) mem).Pairwise
              (· < ·) := by
  constructor
  · rcases select_best_gpus_shape mode gs ids count mem us sc with h | h
    · rw [h]; exact List.Pairwise.nil
    · rw [h]
      refine List.Pairwise.sublist (List.take_sublist _ _) ?_
      rw [List.pairwise_map]
      have hsorted : (((valid_gpus (gpu_stats_dict (stats_source gs us sc) ids) mem).map
          (fun p => (p.1, calculate_priority mode p.2))).insertionSort scoredLe).Pairwise
          scoredLe := List.sorted_insertionSort scoredLe _
      refine hsorted.imp_of_mem ?_
      intro a b ha hb hab
      have hprio : ∀ x ∈ ((valid_gpus (gpu_stats_dict (stats_source gs us sc) ids) mem).map
          (fun p => (p.1, calculate_priority mode p.2))).insertionSort scoredLe,
          priority_in_dict mode (gpu_stats_dict (stats_source gs us sc) ids) x.1 = x.2 := by
        intro x hx
        have hx2 := (List.perm_insertionSort scoredLe _).mem_iff.mp hx
        rcases List.mem_map.mp hx2 with ⟨p, hp, hpx⟩
        have hpdict : p ∈ gpu_stats_dict (stats_source gs us sc) ids :=
          List.mem_of_mem_filter hp
        have hlk := gpu_stats_dict_lookup (stats_source gs us sc) ids p.1 p.2
          (by simpa using hpdict)
        unfold priority_in_dict
        rw [← hpx]
        simp [hlk]
      rw [hprio a ha, hprio b hb]
      exact hab
  · intro c hasc hconst
    have hvalid_const : ∀ p ∈ valid_gpus (gpu_stats_dict (stats_source gs us sc) ids) mem,
        calculate_priority mode p.2 = c :=
      fun p hp => hconst p (List.mem_of_mem_filter hp)
    have hsurv_sorted : (surviving_ids (gpu_stats_dict (stats_source gs us sc) ids) mem).Pairwise
        (· < ·) := by
      unfold surviving_ids
      have hsub : ((valid_gpus (gpu_stats_dict (stats_source gs us sc) ids) mem).map
            Prod.fst).Sublist ids :=
        (List.Sublist.map Prod.fst (List.filter_sublist _)).trans
          (gpu_stats_dict_keys_sublist _ _)
      exact hasc.sublist hsub
    refine ⟨?_, hsurv_sorted⟩
    unfold select_best_gpus
    by_cases h1 : ids.isEmpty || count == 0
    · rw [if_pos h1]
      rcases Bool.or_eq_true_iff.mp h1 with h | h
      · have hids : ids = [] := List.isEmpty_iff.mp h
        subst hids
        simp [surviving_ids, valid_gpus, gpu_stats_dict]
      · have hc0 : count = 0 := by simpa using h
        subst hc0
        simp
    · rw [if_neg h1]
      by_cases h2 : (gpu_stats_dict (stats_source gs us sc) ids).isEmpty
      · rw [if_pos h2]
        have hd : gpu_stats_dict (stats_source gs us sc) ids = [] :=
          List.isEmpty_iff.mp h2
        simp [surviving_ids, valid_gpus, hd]
      · rw [if_neg h2]
        by_cases h3 : (valid_gpus (gpu_stats_dict (stats_source gs us sc) ids) mem).isEmpty
        · rw [if_pos h3]
          have hv : valid_gpus (gpu_stats_dict (stats_source gs us sc) ids) mem = [] :=
            List.isEmpty_iff.mp h3
          simp [surviving_ids, hv]
        · rw [if_neg h3]
          have hscored_sorted : ((valid_gpus (gpu_stats_dict (stats_source gs us sc) ids) mem).map
              (fun p => (p.1, calculate_priority mode p.2))).Pairwise scoredLe := by
            refine List.pairwise_of_forall_mem_list ?_
            intro a ha b hb
            rcases List.mem_map.mp ha with ⟨p, hp, hpa⟩
            rcases List.mem_map.mp hb with ⟨q, hq, hqb⟩
            have ha2 : a.2 = c := by rw [← hpa]; exact hvalid_const p hp
            have hb2 : b.2 = c := by rw [← hqb]; exact hvalid_const q hq
            unfold scoredLe pairLe
            rw [ha2, hb2]
            exact Or.inr ⟨rfl, le_refl _⟩
          simp only [List.Sorted.insertionSort_eq hscored_sorted, List.map_map]
          rfl

/-- C4 witness: two candidates in ascending order with identical stats
(equal priority pairs); the selector returns the smallest surviving id
first. -/
theorem selector_order_spec_witness :
    (([0, 1] : List ℕ).Pairwise (· < ·)
      ∧ ∀ p ∈ gpu_stats_dict (stats_source (fun _ _ =>
            some ⟨0, 1, 0, 1, 0⟩) false 0) [0, 1],
          calculate_priority true p.2 = ((0 : ℚ), (1 : ℚ)))
    ∧ (select_best_gpus true (fun _ _ => some ⟨0, 1, 0, 1, 0⟩) [0, 1] 1 0 false 0
          = (surviving_ids (gpu_stats_dict (stats_source (fun _ _ =>
              some ⟨0, 1, 0, 1, 0⟩) false 0) [0, 1]) 0).take 1
       ∧ (surviving_ids (gpu_stats_dict (stats_source (fun _ _ =>
              some ⟨0, 1, 0, 1, 0⟩) false 0) [0, 1]) 0).Pairwise (· < ·)) := by
  have heval : ∀ p ∈ gpu_stats_dict (stats_source (fun _ _ =>
        some (⟨0, 1, 0, 1, 0⟩ : GPUStats)) false 0) [0, 1],
      calculate_priority true p.2 = ((0 : ℚ), (1 : ℚ)) := by
    intro p hp
    simp only [gpu_stats_dict, stats_source] at hp
    have hp2 : p = ((0 : ℕ), (⟨0, 1, 0, 1, 0⟩ : GPUStats))
        ∨ p = ((1 : ℕ), (⟨0, 1, 0, 1, 0⟩ : GPUStats)) := by
      simpa using hp
    rcases hp2 with rfl | rfl
    · norm_num [calculate_priority, GPUStats.memory_utilization]
    · norm_num [calculate_priority, GPUStats.memory_utilization]
  exact ⟨⟨by decide, heval⟩,
    (selector_order_spec true (fun _ _ => some ⟨0, 1, 0, 1, 0⟩) [0, 1] 1 0 false 0).2
      ((0 : ℚ), (1 : ℚ)) (by decide) heval⟩

/-- C4 counterexample: candidate list `[1, 0]` with identical stats on
both devices (all priority pairs equal).  The claim says equal
priorities are ordered by device id ascending, so the selector should
return `[0]`; the code's stable sort keeps candidate order and returns
`[1]`. -/
theorem selector_order_tiebreak_cx :
    select_best_gpus true (fun _ _ => some ⟨0, 1, 0, 1, 0⟩) [1, 0] 1 0 false 0 = [1]
    ∧ select_best_gpus true (fun _ _ => some ⟨0, 1, 0, 1, 0⟩) [1, 0] 1 0 false 0 ≠ [0] := by
  have hpr : calculate_priority true (⟨0, 1, 0, 1, 0⟩ : GPUStats) = ((0 : ℚ), (1 : ℚ)) := by
    norm_num [calculate_priority, GPUStats.memory_utilization]
  have h : select_best_gpus true (fun _ _ => some ⟨0, 1, 0, 1, 0⟩) [1, 0] 1 0 false 0 = [1] := by
    unfold select_best_gpus
    simp only [gpu_stats_dict, stats_source, Bool.false_eq_true, if_false,
      List.filterMap_cons, Option.map_some, List.filterMap_nil, valid_gpus]
    norm_num [hpr, List.insertionSort, List.orderedInsert, scoredLe, pairLe]
  exact ⟨h, by rw [h]; decide⟩

/- ===================== C8 ===================== -/

theorem exec_commands_ran_events (rcfg : RetryConfig) (now : ℚ)
    (conda_sh work_dir cuda_devices : String) (run_command : ℕ → RunResult)
    (task : SchedTask) :
    ∀ (cmds : List String) (i : ℕ),
      ∀ e ∈ (exec_commands rcfg now conda_sh work_dir cuda_devices run_command
              task cmds i).2.2,
        ∀ s, e = Event.ran s →
          ∃ cmd, cmd ∈ cmds
            ∧ s = build_full_cmd conda_sh cuda_devices (subst_work_dir work_dir cmd) := by
  intro cmds
  induction cmds with
  | nil =>
    intro i e he s hs
    simp only [exec_commands, List.mem_singleton] at he
    rw [he] at hs
    exact Event.noConfusion hs
  | cons cmd rest ih =>
    intro i e he s hs
    rcases hrc : run_command i with ⟨code, out, err⟩ | _ | exc_name
    · by_cases hc : code = 0
      · subst hc
        simp only [exec_commands, hrc, ne_eq, not_true_eq_false, if_false,
          reduceIte, List.mem_cons] at he
        rcases he with he | he
        · rw [he] at hs
          cases hs
          exact ⟨cmd, List.mem_cons_self cmd rest, rfl⟩
        · rcases ih (i + 1) e he s hs with ⟨cmd', hmem, hbuild⟩
          exact ⟨cmd', List.mem_cons_of_mem cmd hmem, hbuild⟩
      · simp only [exec_commands, hrc, ne_eq, hc, not_false_iff, if_true,
          reduceIte, List.mem_cons, List.mem_singleton] at he
        rcases he with he | he | he
        · rw [he] at hs
          cases hs
          exact ⟨cmd, List.mem_cons_self cmd rest, rfl⟩
        · rw [he] at hs
          exact Event.noConfusion hs
        · exact absurd he (List.not_mem_nil e)
    · simp only [exec_commands, hrc, List.mem_cons, List.mem_singleton] at he
      rcases he with he | he | he
      · rw [he] at hs
        cases hs
        exact ⟨cmd, List.mem_cons_self cmd rest, rfl⟩
      · rw [he] at hs
        exact Event.noConfusion hs
      · exact absurd he (List.not_mem_nil e)
    · simp only [exec_commands, hrc, List.mem_cons, List.mem_singleton] at he
      rcases he with he | he | he
      · rw [he] at hs
        cases hs
        exact ⟨cmd, List.mem_cons_self cmd rest, rfl⟩
      · rw [he] at hs
        exact Event.noConfusion hs
      · exact absurd he (List.not_mem_nil e)

/-- C8 (amended).  Every command a started task runs receives a device
mask `CUDA_VISIBLE_DEVICES=d1,d2,...` whose values are comma-joined in
the ORDER OF THE ASSIGNED DEVICE LIST (the order `find_available_gpus`
returned: candidate order on the exact-fit path, selection-priority
order after smart selection), not sorted; the mask is ascending exactly
when that list is already ascending. -/
theorem device_mask_spec (rcfg : RetryConfig) (now : ℚ) (conda_sh work_dir : String)
    (run_command : ℕ → RunResult) (task : SchedTask) (gpu_ids : List ℕ) :
    (∀ e ∈ (execute_task rcfg now conda_sh work_dir run_command task gpu_ids).2.2,
       ∀ s, e = Event.ran s →
         ∃ cmd, cmd ∈ task.commands
           ∧ s = build_full_cmd conda_sh (cuda_devices_str gpu_ids)
               (subst_work_dir work_dir cmd))
    ∧ (gpu_ids.Sorted (· ≤ ·) → ascending_mask gpu_ids = cuda_devices_str gpu_ids) := by
  constructor
  · intro e he s hs
    unfold execute_task at he
    simp only [List.mem_cons] at he
    rcases he with he | he
    · rw [he] at hs
      exact Event.noConfusion hs
    · exact exec_commands_ran_events rcfg now conda_sh work_dir
        (cuda_devices_str gpu_ids) run_command _ task.commands 0 e he s hs
  · intro hsorted
    unfold ascending_mask
    rw [List.Sorted.insertionSort_eq hsorted]

/-- C8 witness: with an already-ascending device list the mask is the
ascending join. -/
theorem device_mask_spec_witness :
    ([0, 1] : List ℕ).Sorted (· ≤ ·)
    ∧ ascending_mask [0, 1] = cuda_devices_str [0, 1] :=
  ⟨by decide,
   (device_mask_spec ⟨3, 600⟩ 0 "cs" "wd" (fun _ => RunResult.timedOut)
     { commands := ["c"], queue_id := 0, gpu_count := 2, estimated_memory_gb := 2 }
     [0, 1]).2 (by decide)⟩

/-- C8 counterexample: with the candidate list `[1, 0]` (a legal
`compete_gpus` configuration) and an exact fit, `find_available_gpus`
returns `[1, 0]`, and the started task's command is built with
`CUDA_VISIBLE_DEVICES=1,0` — comma-joined in assignment order, NOT
ascending (`0,1`), refuting the claimed ascending join. -/
theorem device_mask_not_ascending_cx :
    find_available_gpus false true ⟨0, 3, 8⟩ [1, 0] (fun _ => none) (fun _ => [])
        (fun _ => 10) (fun _ _ => none) 2 2 = some [1, 0]
    ∧ cuda_devices_str [1, 0] = "1,0"
    ∧ ascending_mask [1, 0] = "0,1"
    ∧ cuda_devices_str [1, 0] ≠ ascending_mask [1, 0]
    ∧ (execute_task ⟨3, 600⟩ 0 "cs" "" (fun _ => RunResult.completed 0 "" "")
        { commands := ["c"], queue_id := 0, gpu_count := 2, estimated_memory_gb := 2 }
        [1, 0]).2.2
      = [Event.statusSet "running",
         Event.ran (build_full_cmd "cs" "1,0" "c"),
         Event.statusSet "completed"] := by
  refine ⟨?_, ?_, ?_, ?_, ?_⟩ <;> decide
